import Mathlib

/-!
Verification of the honeypot attack-map backend: a shallow embedding of the
ingestion pipeline (honeypot capture handler, geolocation service with cache
and fallback, event store queries, WebSocket fan-out) together with theorems
about its behaviour.  Times are modelled as natural numbers of seconds, and
latitudes/longitudes as integers (the only coordinate values the theorems
mention are the exact sentinel 0.0).
-/

namespace HoneypotMap

/-- Decimal value of a digit list (most significant first). -/
def digitsVal (cs : List Char) : Nat :=
  cs.foldl (fun n d => n * 10 + (d.toNat - 48)) 0

/-- Python `int(s)` conversion as used on the octets of a dotted-quad string:
optional surrounding whitespace, an optional sign, then one or more decimal
digits; any other shape raises `ValueError`, modelled as `none`. -/
def pyInt? (s : String) : Option Int :=
  let core := (s.toList.dropWhile Char.isWhitespace).reverse.dropWhile Char.isWhitespace
  match core.reverse with
  | [] => none
  | c :: rest =>
      if c == '-' then
        if rest ≠ [] ∧ rest.all Char.isDigit then some (-(Int.ofNat (digitsVal rest)))
        else none
      else if c == '+' then
        if rest ≠ [] ∧ rest.all Char.isDigit then some (Int.ofNat (digitsVal rest))
        else none
      else if (c :: rest).all Char.isDigit then some (Int.ofNat (digitsVal (c :: rest)))
      else none

/-- Python `s.split(sep)` for a one-character separator, over character
lists: the empty string yields `[""]`, adjacent separators yield empty
fields. -/
def splitChars (sep : Char) : List Char → List (List Char)
  | [] => [[]]
  | c :: rest =>
      let r := splitChars sep rest
      if c == sep then [] :: r
      else
        match r with
        | [] => [[c]]
        | g :: gs => (c :: g) :: gs

/-- Python `ip_address.split(".")`. -/
def pySplitDot (s : String) : List String :=
  (splitChars '.' s.toList).map String.mk

/-- Model of `GeoIPService._is_private_ip` (src/backend/services/geoip.py, lines
121-150): split on dots; anything that is not four parts is private; a
`ValueError` from an `int()` conversion is caught and yields private.  Note
that `int(parts[1])` is only reached when the first octet equals 172 or 192,
because Python's `and` short-circuits. -/
def is_private_ip (ip_address : String) : Bool :=
  let parts := pySplitDot ip_address
  if parts.length != 4 then true
  else
    match pyInt? parts[0]! with
    | none => true
    | some first_octet =>
        if first_octet == 10 then true
        else if first_octet == 172 then
          match pyInt? parts[1]! with
          | none => true
          | some p1 => decide (16 ≤ p1 ∧ p1 ≤ 31)
        else if first_octet == 192 then
          match pyInt? parts[1]! with
          | none => true
          | some p1 => p1 == 168
        else first_octet == 127

/-- A geolocation record as returned by `GeoIPService` (the dictionary shape
produced by `_fetch_location_from_api`, `_get_private_ip_location` and
`_get_fallback_location`). -/
structure Location where
  country : String
  city : String
  latitude : Int
  longitude : Int
  region : String
  timezone : String
  isp : String
  org : String
  asLabel : String
  deriving Repr, DecidableEq

/-- Model of `GeoIPService._get_private_ip_location` (geoip.py, lines 152-169). -/
def get_private_ip_location : Location :=
  { country := "Private Network"
  , city := "Local Network"
  , latitude := 0
  , longitude := 0
  , region := "Private"
  , timezone := "UTC"
  , isp := "Private Network"
  , org := "Private Network"
  , asLabel := "Private" }

/-- Model of `GeoIPService._get_fallback_location` (geoip.py, lines 171-188). -/
def get_fallback_location : Location :=
  { country := "Unknown"
  , city := "Unknown"
  , latitude := 0
  , longitude := 0
  , region := "Unknown"
  , timezone := "UTC"
  , isp := "Unknown"
  , org := "Unknown"
  , asLabel := "Unknown" }

/-- The body of a reply from the ip-api.com endpoint, abstracted to what
`_fetch_location_from_api` inspects: either `status == "success"` together
with the location parsed from the JSON fields, or any other status value. -/
inductive ApiResult where
  | success (loc : Location)
  | failureBody
  deriving Repr, DecidableEq

/-- The outcome of one attempted external lookup, chosen by the environment:
an HTTP reply with a status code and body, or an exception (connection error
or timeout) raised during the request. -/
inductive FetchOutcome where
  | response (status : Nat) (res : ApiResult)
  | raises
  deriving Repr, DecidableEq

/-- A cache entry as stored by `get_location`: the dictionary
`{"location": ..., "cached_at": ...}` (geoip.py, lines 62-65). -/
structure CacheEntry where
  location : Location
  cached_at : Nat
  deriving Repr, DecidableEq

/-- The mutable state of a `GeoIPService` instance: the cache dictionary and
the rate-limiter clock (geoip.py, lines 26-29). -/
structure GeoIPState where
  cache : List (String × CacheEntry)
  last_request_time : Nat
  deriving Repr, DecidableEq

/-- A fresh `GeoIPService()` instance. -/
def GeoIPState.init : GeoIPState := { cache := [], last_request_time := 0 }

/-- Model of `self.cache_duration = timedelta(hours=24)`, in seconds. -/
def cache_duration_secs : Nat := 86400

/-- Python dictionary lookup `self.cache[ip]` guarded by `ip in self.cache`
(dictionary keys are unique, so the first binding is the binding). -/
def cacheLookup (cache : List (String × CacheEntry)) (ip : String) : Option CacheEntry :=
  match cache with
  | [] => none
  | e :: rest => if e.1 == ip then some e.2 else cacheLookup rest ip

/-- Python dictionary assignment `self.cache[ip] = entry`: replaces the
binding of an existing key in place, otherwise appends a new binding. -/
def cacheInsert (cache : List (String × CacheEntry)) (ip : String) (entry : CacheEntry) :
    List (String × CacheEntry) :=
  match cache with
  | [] => [(ip, entry)]
  | e :: rest =>
      if e.1 == ip then (ip, entry) :: rest
      else e :: cacheInsert rest ip entry

/-- Model of `GeoIPService._is_cache_valid` (geoip.py, lines 190-207):
`datetime.now() - cached_at < self.cache_duration`.  With natural-number
times the truncated difference agrees with Python's signed comparison: an
entry stamped in the future is valid in both. -/
def is_cache_valid (now : Nat) (entry : CacheEntry) : Bool :=
  now - entry.cached_at < cache_duration_secs

/-- Model of `GeoIPService._fetch_location_from_api` (geoip.py, lines 74-108): a 200
reply with a success body yields the parsed location; a 200 reply with any
other body status, or a non-200 reply, yields the fallback record; an
exception during the request propagates to the caller (`Except.error`). -/
def fetch_location_from_api (outcome : FetchOutcome) : Except Unit Location :=
  match outcome with
  | .raises => .error ()
  | .response status res =>
      if status == 200 then
        match res with
        | .success loc => .ok loc
        | .failureBody => .ok get_fallback_location
      else .ok get_fallback_location

/-- The result of one `get_location` call: the returned record, the service
state afterwards, and how many external lookups the call attempted. -/
structure GetLocationResult where
  location : Location
  state : GeoIPState
  fetches : Nat
  deriving Repr, DecidableEq

/-- Model of `GeoIPService.get_location` (geoip.py, lines 33-72).  Private addresses
short-circuit to the fixed private record; a valid cache entry is returned
as-is; otherwise the rate limiter runs (modelled as updating
`last_request_time` to `now`) and one external lookup is attempted.  A
completed lookup (success or fallback body) is cached under the address; an
exception from the lookup is caught by the surrounding `try`, which returns
the fallback record without touching the cache. -/
def get_location (st : GeoIPState) (now : Nat) (ip_address : String)
    (outcome : FetchOutcome) : GetLocationResult :=
  if is_private_ip ip_address then
    { location := get_private_ip_location, state := st, fetches := 0 }
  else
    let fetchBranch : GetLocationResult :=
      let st1 : GeoIPState := { st with last_request_time := now }
      match fetch_location_from_api outcome with
      | .ok loc =>
          { location := loc
          , state := { st1 with
                        cache := cacheInsert st1.cache ip_address ⟨loc, now⟩ }
          , fetches := 1 }
      | .error _ =>
          { location := get_fallback_location, state := st1, fetches := 1 }
    match cacheLookup st.cache ip_address with
    | some entry =>
        if is_cache_valid now entry then
          { location := entry.location, state := st, fetches := 0 }
        else fetchBranch
    | none => fetchBranch

/-- Model of `Attack.get_risk_level` (src/backend/models.py, lines 160-183): a pure
function of the destination port. -/
def get_risk_level (port : Nat) : String :=
  let critical_ports : List Nat := [22, 3389, 5432, 3306, 1433]
  let high_risk_ports : List Nat := [21, 23, 25, 53, 80, 443, 993, 995]
  let medium_risk_ports : List Nat := [110, 143, 993, 995, 587, 465]
  if port ∈ critical_ports then "CRITICAL"
  else if port ∈ high_risk_ports then "HIGH"
  else if port ∈ medium_risk_ports then "MEDIUM"
  else "LOW"

/-- An `Attack` row (src/backend/models.py, class `Attack`), restricted to
the columns the ingestion pipeline writes (main.py, lines 136-145).  `id` is
`none` until the commit assigns the autoincrement key. -/
structure Attack where
  id : Option Nat
  ip_address : String
  port : Nat
  protocol : String
  country : String
  city : String
  latitude : Int
  longitude : Int
  timestamp : Nat
  deriving Repr, DecidableEq

/-- The WebSocket payload dictionary built in `handle_new_attack`
(main.py, lines 158-168) from the refreshed row. -/
structure AttackData where
  id : Nat
  ip_address : String
  port : Nat
  protocol : String
  country : String
  city : String
  latitude : Int
  longitude : Int
  timestamp : Nat
  deriving Repr, DecidableEq

/-- Build the WebSocket payload from a persisted row with its assigned id. -/
def attackData (a : Attack) (assignedId : Nat) : AttackData :=
  { id := assignedId
  , ip_address := a.ip_address
  , port := a.port
  , protocol := a.protocol
  , country := a.country
  , city := a.city
  , latitude := a.latitude
  , longitude := a.longitude
  , timestamp := a.timestamp }

/-- The `attacks` table with its autoincrement counter. -/
structure Store where
  nextId : Nat
  events : List Attack
  deriving Repr, DecidableEq

/-- Model of `ConnectionManager.disconnect` (main.py, lines 69-73): remove the
WebSocket from `active_connections` only if it is present, so removing an
absent one is a no-op.  Subscribers are identified by their transport
handle. -/
def disconnect (conns : List Nat) (ws : Nat) : List Nat :=
  if ws ∈ conns then conns.erase ws else conns

/-- The `for connection in connections` loop of `ConnectionManager.send_attack`
(main.py, lines 80-85), iterating over the snapshot: a successful
`send_json` records a delivery, a failed one disconnects that subscriber
from the live list.  `sendOk` is the environment's verdict on each
transport. -/
def send_attack_loop (sendOk : Nat → Bool) :
    List Nat → List Nat → List Nat → List Nat × List Nat
  | [], delivered, conns => (delivered, conns)
  | c :: rest, delivered, conns =>
      if sendOk c then send_attack_loop sendOk rest (delivered ++ [c]) conns
      else send_attack_loop sendOk rest delivered (disconnect conns c)

/-- Model of `ConnectionManager.send_attack` (main.py, lines 75-85): if any
subscribers are connected, iterate over a copy (`snapshot`) of the list,
returning the subscribers that received the payload and the connection list
afterwards. -/
def send_attack (conns : List Nat) (sendOk : Nat → Bool) : List Nat × List Nat :=
  if conns.isEmpty then ([], conns)
  else send_attack_loop sendOk conns [] conns

/-- The observable outcome of one `handle_new_attack` call: the geolocation
service state, the store, the payloads handed to `manager.send_attack`, the
subscribers that received them, the connection list, and whether the handler
returned normally (its outer `except` swallows every error, so it always
does). -/
structure PipelineResult where
  geo : GeoIPState
  store : Store
  broadcasts : List AttackData
  delivered : List Nat
  conns : List Nat
  completed : Bool
  deriving Repr, DecidableEq

/-- Model of `handle_new_attack` (src/backend/main.py, lines 120-174).  The capture
arrives at `acceptTime`; geolocation takes `geoDuration` seconds, so the
`datetime.now()` used both inside `get_location` and for the row's
`timestamp=` keyword is `acceptTime + geoDuration`.  `storageFails` says
whether `db.commit()` raises; when it does, control jumps to the outer
`except` after `db.close()`, so nothing is broadcast and the handler still
returns normally.  Otherwise the commit assigns the next id, the row is
appended, and the payload goes to `send_attack`. -/
def handle_new_attack (geo : GeoIPState) (store : Store) (conns : List Nat)
    (ip_address : String) (port : Nat) (protocol : String)
    (acceptTime geoDuration : Nat) (outcome : FetchOutcome)
    (storageFails : Bool) (sendOk : Nat → Bool) : PipelineResult :=
  let now := acceptTime + geoDuration
  let g := get_location geo now ip_address outcome
  let attack : Attack :=
    { id := none
    , ip_address := ip_address
    , port := port
    , protocol := protocol
    , country := g.location.country
    , city := g.location.city
    , latitude := g.location.latitude
    , longitude := g.location.longitude
    , timestamp := now }
  if storageFails then
    { geo := g.state, store := store, broadcasts := [], delivered := []
    , conns := conns, completed := true }
  else
    let persisted : Attack := { attack with id := some store.nextId }
    let store' : Store :=
      { nextId := store.nextId + 1, events := store.events ++ [persisted] }
    let payload := attackData attack store.nextId
    let sent := send_attack conns sendOk
    { geo := g.state, store := store', broadcasts := [payload]
    , delivered := sent.1, conns := sent.2, completed := true }

/-- The environment of one capture: what the honeypot hands over plus the
storage and lookup outcomes the world chooses for it. -/
structure CaptureEnv where
  ip : String
  port : Nat
  protocol : String
  acceptTime : Nat
  geoDuration : Nat
  outcome : FetchOutcome
  storageFails : Bool

/-- Successive captures processed by the pipeline; since `handle_new_attack`
never raises, each capture is handled regardless of earlier failures. -/
def process_captures (sendOk : Nat → Bool) :
    GeoIPState → Store → List Nat → List CaptureEnv → GeoIPState × Store × List Nat
  | geo, store, conns, [] => (geo, store, conns)
  | geo, store, conns, c :: rest =>
      let r := handle_new_attack geo store conns c.ip c.port c.protocol
        c.acceptTime c.geoDuration c.outcome c.storageFails sendOk
      process_captures sendOk r.geo r.store r.conns rest

/-- Lower-case a character list (ASCII, as `str.lower` does on the column
values appearing here). -/
def lowerChars (cs : List Char) : List Char := cs.map Char.toLower

/-- Whether `needle` starts `hay`. -/
def startsWithChars : List Char → List Char → Bool
  | [], _ => true
  | _ :: _, [] => false
  | a :: as, b :: bs => a == b && startsWithChars as bs

/-- Whether `needle` occurs contiguously inside `hay`. -/
def hasSubChars (needle : List Char) : List Char → Bool
  | [] => needle.isEmpty
  | c :: rest => startsWithChars needle (c :: rest) || hasSubChars needle rest

/-- The `Attack.country.ilike(f"%{country}%")` filter of `get_attacks`
(src/backend/routes/attacks.py, line 52): case-insensitive containment of
the filter value in the column (wildcard characters inside the filter value
itself are not modelled). -/
def ilikeContains (column pattern : String) : Bool :=
  hasSubChars (lowerChars pattern.toList) (lowerChars column.toList)

/-- The filter chain of `get_attacks` (attacks.py, lines 51-62): optional
country substring match, protocol equality, port equality, and the
lower-bound timestamp `cutoff` derived from the `hours` parameter. -/
def applyFilters (events : List Attack) (country protocol : Option String)
    (port : Option Nat) (cutoff : Option Nat) : List Attack :=
  events.filter (fun a =>
    (match country with | none => true | some c => ilikeContains a.country c) &&
    (match protocol with | none => true | some p => a.protocol == p) &&
    (match port with | none => true | some p => a.port == p) &&
    (match cutoff with | none => true | some t => t ≤ a.timestamp))

/-- Descending-timestamp order between adjacent results, as produced by
`order_by(desc(Attack.timestamp))` (attacks.py, line 65). -/
def tsDescSorted (l : List Attack) : Prop :=
  List.Sorted (fun a b => b.timestamp ≤ a.timestamp) l

/-- The result relation of `get_attacks` (attacks.py, lines 21-74): the
filtered rows in some order consistent with `ORDER BY timestamp DESC`
(the query imposes no further key, so the order among equal timestamps is
whatever the database produces), then `offset` and `limit` applied.  A list
is a possible response iff this relation holds. -/
def get_attacks_result (events : List Attack) (country protocol : Option String)
    (port : Option Nat) (cutoff : Option Nat) (limit offset : Nat)
    (result : List Attack) : Prop :=
  ∃ ordered : List Attack,
    List.Perm (applyFilters events country protocol port cutoff) ordered ∧
    tsDescSorted ordered ∧
    result = (ordered.drop offset).take limit

/-- The FastAPI validation of the `limit` query parameter,
`Query(100, ge=1, le=1000)` (attacks.py, line 23): a request whose limit
falls outside the bounds is rejected with a validation error before the
handler runs. -/
def limit_param_ok (limit : Nat) : Bool :=
  decide (1 ≤ limit) && decide (limit ≤ 1000)

/-- Model of `cleanup_old_attacks` (attacks.py, lines 329-363): compute the cutoff
`utcnow() - timedelta(days=days)`, count the rows strictly older than it,
delete them (unless there are none), and report the count. -/
def cleanup_old_attacks (events : List Attack) (now days : Nat) :
    List Attack × Nat :=
  let cutoff := now - days * 86400
  let count := (events.filter (fun a => a.timestamp < cutoff)).length
  if count == 0 then (events, 0)
  else (events.filter (fun a => ¬ (a.timestamp < cutoff)), count)

/-! Helper lemmas. -/

theorem cacheLookup_cacheInsert (cache : List (String × CacheEntry))
    (ip : String) (entry : CacheEntry) :
    cacheLookup (cacheInsert cache ip entry) ip = some entry := by
  induction cache with
  | nil => simp [cacheInsert, cacheLookup]
  | cons e rest ih =>
      by_cases hk : e.1 = ip
      · simp [cacheInsert, cacheLookup, hk]
      · simp [cacheInsert, cacheLookup, hk, ih]

/-! Claim theorems. -/

/-- C8: risk classification is a pure function of the destination port into
the four severity labels: port 22 maps to CRITICAL, 80 to HIGH, 143 to
MEDIUM, and any port in none of the three configured port lists (such as
9999) maps to LOW. -/
theorem risk_classification_by_port :
    get_risk_level 22 = "CRITICAL" ∧
    get_risk_level 80 = "HIGH" ∧
    get_risk_level 143 = "MEDIUM" ∧
    get_risk_level 9999 = "LOW" ∧
    (∀ port : Nat,
      get_risk_level port = "LOW" ∨ get_risk_level port = "MEDIUM" ∨
        get_risk_level port = "HIGH" ∨ get_risk_level port = "CRITICAL") ∧
    (∀ port : Nat,
      port ∉ ([22, 3389, 5432, 3306, 1433] : List Nat) →
      port ∉ ([21, 23, 25, 53, 80, 443, 993, 995] : List Nat) →
      port ∉ ([110, 143, 993, 995, 587, 465] : List Nat) →
      get_risk_level port = "LOW") := by
  refine ⟨by decide, by decide, by decide, by decide, ?_, ?_⟩
  · intro port
    unfold get_risk_level
    by_cases h1 : port ∈ ([22, 3389, 5432, 3306, 1433] : List Nat)
    · simp [h1]
    · by_cases h2 : port ∈ ([21, 23, 25, 53, 80, 443, 993, 995] : List Nat)
      · simp [h1, h2]
      · by_cases h3 : port ∈ ([110, 143, 993, 995, 587, 465] : List Nat)
        · simp [h1, h2, h3]
        · simp [h1, h2, h3]
  · intro port h1 h2 h3
    unfold get_risk_level
    simp [h1, h2, h3]

/-- Witness for C8: port 9999 is in none of the configured lists and is
classified LOW. -/
theorem risk_classification_by_port_witness :
    9999 ∉ ([22, 3389, 5432, 3306, 1433] : List Nat) ∧
    get_risk_level 9999 = "LOW" :=
  ⟨by decide,
   risk_classification_by_port.2.2.2.2.2 9999 (by decide) (by decide) (by decide)⟩

/-- C2: every source address in the RFC1918 or loopback ranges — a dotted
quad whose first octet is 10 or 127, or 172 with second octet between 16
and 31, or 192 with second octet 168 — resolves to the fixed
private-network record (country "Private Network", coordinates 0) with no
external lookup and no change to the service state. -/
theorem private_range_no_lookup (st : GeoIPState) (now : Nat) (ip : String)
    (outcome : FetchOutcome)
    (h4 : (pySplitDot ip).length = 4)
    (hrange :
      pyInt? (pySplitDot ip)[0]! = some 10 ∨
      pyInt? (pySplitDot ip)[0]! = some 127 ∨
      (pyInt? (pySplitDot ip)[0]! = some 172 ∧
        ∃ b : Int, pyInt? (pySplitDot ip)[1]! = some b ∧ 16 ≤ b ∧ b ≤ 31) ∨
      (pyInt? (pySplitDot ip)[0]! = some 192 ∧
        pyInt? (pySplitDot ip)[1]! = some 168)) :
    get_location st now ip outcome =
      { location := get_private_ip_location, state := st, fetches := 0 } ∧
    get_private_ip_location.country = "Private Network" ∧
    get_private_ip_location.latitude = 0 ∧
    get_private_ip_location.longitude = 0 := by
  have hp : is_private_ip ip = true := by
    rcases hrange with h10 | h127 | ⟨h172, b, hb, h16, h31⟩ | ⟨h192, hb⟩
    · simp [is_private_ip, h4, h10]
    · simp [is_private_ip, h4, h127]
    · simp only [is_private_ip, h4]
      norm_num [h172, hb]
      exact ⟨h16, h31⟩
    · simp [is_private_ip, h4, h192, hb]
  refine ⟨?_, rfl, rfl, rfl⟩
  simp [get_location, hp]

/-- Witness for C2 at the loopback address 127.0.0.1. -/
theorem private_range_no_lookup_witness :
    (pySplitDot "127.0.0.1").length = 4 ∧
    pyInt? (pySplitDot "127.0.0.1")[0]! = some 127 ∧
    get_location GeoIPState.init 5 "127.0.0.1" FetchOutcome.raises =
      { location := get_private_ip_location, state := GeoIPState.init
      , fetches := 0 } :=
  ⟨by decide, by decide,
   (private_range_no_lookup GeoIPState.init 5 "127.0.0.1" FetchOutcome.raises
     (by decide) (Or.inr (Or.inl (by decide)))).1⟩

/-- C5 (divergence exhibit): for a capture accepted at time 1000 whose
geolocation step takes 7 seconds, the persisted row's timestamp is 1007,
the completion time of the geolocation step, not the accept time 1000 —
`handle_new_attack` stamps the row with `datetime.now()` only after
`get_location` has returned. -/
theorem timestamp_taken_after_geolocation :
    (handle_new_attack GeoIPState.init ⟨1, []⟩ [] "8.8.8.8" 2222 "TCP"
        1000 7 (FetchOutcome.response 200 (ApiResult.success get_fallback_location))
        false (fun _ => true)).store.events.map (fun a => a.timestamp) = [1007] ∧
    (1007 : Nat) ≠ 1000 := by decide

/-- C10 counterexample: the address string "8.x.8.8" splits into exactly
four dot-separated parts, its first part parses as the integer 8 while its
second does not parse as an integer, yet the classifier declares it public
(`false`), and resolving it issues an external lookup. -/
theorem second_octet_not_checked_cex :
    (pySplitDot "8.x.8.8").length = 4 ∧
    pyInt? (pySplitDot "8.x.8.8")[0]! = some 8 ∧
    pyInt? (pySplitDot "8.x.8.8")[1]! = none ∧
    is_private_ip "8.x.8.8" = false ∧
    (get_location GeoIPState.init 0 "8.x.8.8"
        (FetchOutcome.response 200 (ApiResult.success get_fallback_location))).fetches
      = 1 := by decide

/-- C10 (amended): the classifier returns true for every string that does
not split into exactly four dot-separated parts (which covers every IPv6
textual address) or whose first part does not parse as an integer; when the
first octet is 172 or 192, a non-integer second part also yields true; but
the second part is not examined for any other first octet.  Every address
the classifier marks private resolves to the fixed private-network record
with no external lookup. -/
theorem malformed_address_classified_private :
    (∀ ip : String, (pySplitDot ip).length ≠ 4 → is_private_ip ip = true) ∧
    (∀ ip : String, pyInt? (pySplitDot ip)[0]! = none → is_private_ip ip = true) ∧
    (∀ ip : String,
      (pyInt? (pySplitDot ip)[0]! = some 172 ∨
        pyInt? (pySplitDot ip)[0]! = some 192) →
      pyInt? (pySplitDot ip)[1]! = none → is_private_ip ip = true) ∧
    (∀ (st : GeoIPState) (now : Nat) (ip : String) (outcome : FetchOutcome),
      is_private_ip ip = true →
      get_location st now ip outcome =
        { location := get_private_ip_location, state := st, fetches := 0 }) := by
  refine ⟨?_, ?_, ?_, ?_⟩
  · intro ip h
    simp [is_private_ip, h]
  · intro ip h
    by_cases hl : (pySplitDot ip).length = 4
    · simp [is_private_ip, hl, h]
    · simp [is_private_ip, hl]
  · intro ip h12 h2
    by_cases hl : (pySplitDot ip).length = 4
    · rcases h12 with h1 | h1
      · simp [is_private_ip, hl, h1, h2]
      · simp [is_private_ip, hl, h1, h2]
    · simp [is_private_ip, hl]
  · intro st now ip outcome h
    simp [get_location, h]

/-- Witness for the amended C10: the IPv6 loopback string "::1" is
classified private and resolves to the private record without a lookup. -/
theorem malformed_address_classified_private_witness :
    is_private_ip "::1" = true ∧
    get_location GeoIPState.init 0 "::1" FetchOutcome.raises =
      { location := get_private_ip_location, state := GeoIPState.init
      , fetches := 0 } :=
  ⟨malformed_address_classified_private.1 "::1" (by decide),
   malformed_address_classified_private.2.2.2 GeoIPState.init 0 "::1"
     FetchOutcome.raises
     (malformed_address_classified_private.1 "::1" (by decide))⟩

/-- C4 counterexample: a resolution of 8.8.8.8 against an empty cache whose
external lookup raises returns the Unknown fallback record but stores
nothing under the address, so the failure outcome is not cached as the
claim requires. -/
theorem exception_fallback_not_cached_cex :
    (get_location GeoIPState.init 0 "8.8.8.8" FetchOutcome.raises).location =
      get_fallback_location ∧
    cacheLookup
      (get_location GeoIPState.init 0 "8.8.8.8" FetchOutcome.raises).state.cache
      "8.8.8.8" = none := by decide

theorem fetch_failure_fallback (status : Nat) (res : ApiResult)
    (h : status ≠ 200 ∨ res = ApiResult.failureBody) :
    fetch_location_from_api (FetchOutcome.response status res) =
      Except.ok get_fallback_location := by
  rcases h with h | h
  · simp [fetch_location_from_api, h]
  · subst h
    by_cases h200 : status = 200 <;> simp [fetch_location_from_api, h200]

/-- C4 (amended): when a resolution attempt actually reaches the external
lookup (non-private address, no valid cache entry), a reply that completes
with a non-200 status or a non-success body makes `get_location` return the
Unknown fallback record and cache it under the address; an exception or
timeout raised during the lookup makes it return the fallback to the caller
without caching anything — the cache is left exactly as it was. -/
theorem lookup_failure_returns_fallback (st : GeoIPState) (now : Nat)
    (ip : String)
    (hpriv : is_private_ip ip = false)
    (hmiss : ∀ e, cacheLookup st.cache ip = some e → is_cache_valid now e = false) :
    (∀ (status : Nat) (res : ApiResult),
      (status ≠ 200 ∨ res = ApiResult.failureBody) →
      (get_location st now ip (FetchOutcome.response status res)).location =
          get_fallback_location ∧
        cacheLookup (get_location st now ip
            (FetchOutcome.response status res)).state.cache ip =
          some ⟨get_fallback_location, now⟩) ∧
    ((get_location st now ip FetchOutcome.raises).location =
        get_fallback_location ∧
      (get_location st now ip FetchOutcome.raises).state.cache = st.cache) := by
  constructor
  · intro status res h
    have hf := fetch_failure_fallback status res h
    cases hc : cacheLookup st.cache ip with
    | none => simp [get_location, hpriv, hc, hf, cacheLookup_cacheInsert]
    | some e =>
        have hv := hmiss e hc
        simp [get_location, hpriv, hc, hv, hf, cacheLookup_cacheInsert]
  · cases hc : cacheLookup st.cache ip with
    | none => simp [get_location, hpriv, hc, fetch_location_from_api]
    | some e =>
        have hv := hmiss e hc
        simp [get_location, hpriv, hc, hv, fetch_location_from_api]

/-- Witness for the amended C4: a 500 reply for 8.8.8.8 is cached as the
fallback record, while a raised lookup leaves the empty cache empty. -/
theorem lookup_failure_returns_fallback_witness :
    is_private_ip "8.8.8.8" = false ∧
    cacheLookup
      (get_location GeoIPState.init 3 "8.8.8.8"
        (FetchOutcome.response 500 ApiResult.failureBody)).state.cache "8.8.8.8" =
      some ⟨get_fallback_location, 3⟩ ∧
    (get_location GeoIPState.init 3 "8.8.8.8" FetchOutcome.raises).state.cache =
      GeoIPState.init.cache :=
  ⟨by decide,
   ((lookup_failure_returns_fallback GeoIPState.init 3 "8.8.8.8" (by decide)
      (fun e he => by simp [cacheLookup, GeoIPState.init] at he)).1 500
      ApiResult.failureBody (Or.inr rfl)).2,
   (lookup_failure_returns_fallback GeoIPState.init 3 "8.8.8.8" (by decide)
      (fun e he => by simp [cacheLookup, GeoIPState.init] at he)).2.2⟩

/-- C3 counterexample: resolve 8.8.8.8 at time 0 by a completed successful
lookup, then resolve it again at time 86400, once the 24-hour window has
elapsed, with a refresh lookup that raises.  The refresh is attempted
(one fetch) but the cache entry is not replaced: the stale record stamped
at time 0 is still the cached entry afterwards, refuting the claim's
unconditional "replaces the cache entry". -/
theorem stale_entry_survives_failed_refresh_cex :
    (get_location
      (get_location GeoIPState.init 0 "8.8.8.8"
        (FetchOutcome.response 200 (ApiResult.success get_private_ip_location))).state
      86400 "8.8.8.8" FetchOutcome.raises).fetches = 1 ∧
    cacheLookup
      (get_location
        (get_location GeoIPState.init 0 "8.8.8.8"
          (FetchOutcome.response 200 (ApiResult.success get_private_ip_location))).state
        86400 "8.8.8.8" FetchOutcome.raises).state.cache "8.8.8.8" =
      some ⟨get_private_ip_location, 0⟩ ∧
    (get_location
      (get_location GeoIPState.init 0 "8.8.8.8"
        (FetchOutcome.response 200 (ApiResult.success get_private_ip_location))).state
      86400 "8.8.8.8" FetchOutcome.raises).state.cache =
      (get_location GeoIPState.init 0 "8.8.8.8"
        (FetchOutcome.response 200 (ApiResult.success get_private_ip_location))).state.cache := by
  decide

/-- C3 (amended): after a non-private address with no cache entry is
resolved at time `t0` by a completed successful lookup, a second resolution
strictly inside the 24-hour freshness window returns the cached record with
no further lookup and no state change; once the window has elapsed, the
next resolution performs exactly one refresh lookup whatever its outcome; a
refresh that completes successfully replaces the cache entry with the new
record stamped at the new time, but a refresh that raises (connection error
or timeout) returns the fallback and leaves the cache — including the old
stale entry — unchanged. -/
theorem cache_freshness_window (st : GeoIPState) (ip : String)
    (t0 t1 : Nat) (loc loc2 : Location) (outcome2 : FetchOutcome)
    (hpriv : is_private_ip ip = false)
    (hmiss : cacheLookup st.cache ip = none) :
    let r1 := get_location st t0 ip
      (FetchOutcome.response 200 (ApiResult.success loc))
    r1.fetches = 1 ∧
    cacheLookup r1.state.cache ip = some ⟨loc, t0⟩ ∧
    (t1 - t0 < 86400 →
      get_location r1.state t1 ip outcome2 =
        { location := loc, state := r1.state, fetches := 0 }) ∧
    (86400 ≤ t1 - t0 → (get_location r1.state t1 ip outcome2).fetches = 1) ∧
    (86400 ≤ t1 - t0 →
      cacheLookup (get_location r1.state t1 ip
          (FetchOutcome.response 200 (ApiResult.success loc2))).state.cache ip =
        some ⟨loc2, t1⟩) ∧
    (86400 ≤ t1 - t0 →
      (get_location r1.state t1 ip FetchOutcome.raises).location =
          get_fallback_location ∧
        (get_location r1.state t1 ip FetchOutcome.raises).state.cache =
          r1.state.cache) := by
  intro r1
  have h1 : r1 =
      { location := loc
      , state := { cache := cacheInsert st.cache ip ⟨loc, t0⟩
                 , last_request_time := t0 }
      , fetches := 1 } := by
    simp [r1, get_location, hpriv, hmiss, fetch_location_from_api]
  have hl1 : cacheLookup r1.state.cache ip = some ⟨loc, t0⟩ := by
    rw [h1]
    exact cacheLookup_cacheInsert st.cache ip ⟨loc, t0⟩
  refine ⟨by rw [h1], hl1, ?_, ?_, ?_, ?_⟩
  · intro hlt
    have hvalid : is_cache_valid t1 ⟨loc, t0⟩ = true := by
      simp [is_cache_valid, cache_duration_secs, hlt]
    simp [get_location, hpriv, hl1, hvalid]
  · intro hge
    have hstale : is_cache_valid t1 ⟨loc, t0⟩ = false := by
      simp [is_cache_valid, cache_duration_secs]
      exact hge
    cases hfo : fetch_location_from_api outcome2 with
    | ok l => simp [get_location, hpriv, hl1, hstale, hfo]
    | error e => simp [get_location, hpriv, hl1, hstale, hfo]
  · intro hge
    have hstale : is_cache_valid t1 ⟨loc, t0⟩ = false := by
      simp [is_cache_valid, cache_duration_secs]
      exact hge
    simp [get_location, hpriv, hl1, hstale, fetch_location_from_api,
      cacheLookup_cacheInsert]
  · intro hge
    have hstale : is_cache_valid t1 ⟨loc, t0⟩ = false := by
      simp [is_cache_valid, cache_duration_secs]
      exact hge
    constructor
    · simp [get_location, hpriv, hl1, hstale, fetch_location_from_api]
    · simp [get_location, hpriv, hl1, hstale, fetch_location_from_api]

/-- Witness for the amended C3 at 8.8.8.8: resolve at time 0, hit the cache
at time 100, and refresh with one lookup at time 86400. -/
theorem cache_freshness_window_witness :
    is_private_ip "8.8.8.8" = false ∧
    cacheLookup GeoIPState.init.cache "8.8.8.8" = none ∧
    (get_location
      (get_location GeoIPState.init 0 "8.8.8.8"
        (FetchOutcome.response 200 (ApiResult.success get_private_ip_location))).state
      100 "8.8.8.8" FetchOutcome.raises).fetches = 0 ∧
    (get_location
      (get_location GeoIPState.init 0 "8.8.8.8"
        (FetchOutcome.response 200 (ApiResult.success get_private_ip_location))).state
      86400 "8.8.8.8" FetchOutcome.raises).fetches = 1 := by
  refine ⟨by decide, by decide, ?_, ?_⟩
  · have h := (cache_freshness_window GeoIPState.init "8.8.8.8" 0 100
      get_private_ip_location get_private_ip_location FetchOutcome.raises
      (by decide) (by decide)).2.2.1 (by decide)
    rw [h]
  · exact (cache_freshness_window GeoIPState.init "8.8.8.8" 0 86400
      get_private_ip_location get_private_ip_location FetchOutcome.raises
      (by decide) (by decide)).2.2.2.1 (by decide)

theorem mem_of_get_attacks_result {events result : List Attack}
    {country protocol : Option String} {port lower : Option Nat}
    {limit offset : Nat}
    (h : get_attacks_result events country protocol port lower limit offset result) :
    ∀ a ∈ result, a ∈ events := by
  obtain ⟨ordered, hperm, hsort, heq⟩ := h
  intro a ha
  subst heq
  have h1 : a ∈ ordered.drop offset := List.mem_of_mem_take ha
  have h2 : a ∈ ordered := List.mem_of_mem_drop h1
  have h3 : a ∈ applyFilters events country protocol port lower :=
    hperm.mem_iff.mpr h2
  unfold applyFilters at h3
  exact (List.mem_filter.mp h3).1

theorem length_filter_split (cutoff : Nat) (l : List Attack) :
    (l.filter (fun a => ¬ (a.timestamp < cutoff))).length +
      (l.filter (fun a => a.timestamp < cutoff)).length = l.length := by
  induction l with
  | nil => rfl
  | cons a rest ih =>
      by_cases h : a.timestamp < cutoff
      · rw [List.filter_cons, List.filter_cons, if_neg (by simp [h]),
          if_pos (by simp [h])]
        simp only [List.length_cons]
        omega
      · rw [List.filter_cons, List.filter_cons, if_pos (by simp [h]),
          if_neg (by simp [h])]
        simp only [List.length_cons]
        omega

/-- C7: the purge removes exactly the events whose timestamp is strictly
older than the cutoff `now - days`, returns the count of removed events,
keeps every event at or after the cutoff, and any subsequent query over the
remainder only ever returns events at or after the cutoff. -/
theorem purge_removes_strictly_older (events : List Attack) (now days : Nat) :
    (∀ a ∈ (cleanup_old_attacks events now days).1,
        a ∈ events ∧ now - days * 86400 ≤ a.timestamp) ∧
    (∀ a ∈ events, now - days * 86400 ≤ a.timestamp →
        a ∈ (cleanup_old_attacks events now days).1) ∧
    (cleanup_old_attacks events now days).2 =
      (events.filter (fun a => a.timestamp < now - days * 86400)).length ∧
    (cleanup_old_attacks events now days).1.length +
        (cleanup_old_attacks events now days).2 = events.length ∧
    (∀ (country protocol : Option String) (port lower : Option Nat)
        (limit offset : Nat) (result : List Attack),
      get_attacks_result (cleanup_old_attacks events now days).1 country
        protocol port lower limit offset result →
      ∀ a ∈ result, now - days * 86400 ≤ a.timestamp) := by
  by_cases h0 :
      (events.filter (fun a => a.timestamp < now - days * 86400)).length = 0
  · have hr : cleanup_old_attacks events now days = (events, 0) := by
      simp [cleanup_old_attacks, h0]
    have hnil := List.length_eq_zero.mp h0
    have hall : ∀ a ∈ events, now - days * 86400 ≤ a.timestamp := by
      intro a ha
      by_contra hlt
      push_neg at hlt
      have hm : a ∈ events.filter (fun a => a.timestamp < now - days * 86400) :=
        List.mem_filter.mpr ⟨ha, by simpa using hlt⟩
      rw [hnil] at hm
      exact (List.not_mem_nil a) hm
    refine ⟨?_, ?_, ?_, ?_, ?_⟩
    · intro a ha
      rw [hr] at ha
      exact ⟨ha, hall a ha⟩
    · intro a ha _
      rw [hr]
      exact ha
    · rw [hr, h0]
    · rw [hr]
      simp
    · intro country protocol port lower limit offset result hres a ha
      have hmem := mem_of_get_attacks_result hres a ha
      rw [hr] at hmem
      exact hall a hmem
  · have hr : cleanup_old_attacks events now days =
        (events.filter (fun a => ¬ (a.timestamp < now - days * 86400)),
         (events.filter (fun a => a.timestamp < now - days * 86400)).length) := by
      simp [cleanup_old_attacks, h0]
    refine ⟨?_, ?_, ?_, ?_, ?_⟩
    · intro a ha
      rw [hr] at ha
      have := List.mem_filter.mp ha
      refine ⟨this.1, ?_⟩
      have := this.2
      simp at this
      omega
    · intro a ha hge
      rw [hr]
      refine List.mem_filter.mpr ⟨ha, ?_⟩
      simp
      omega
    · rw [hr]
    · rw [hr]
      exact length_filter_split (now - days * 86400) events
    · intro country protocol port lower limit offset result hres a ha
      have hmem := mem_of_get_attacks_result hres a ha
      rw [hr] at hmem
      have := (List.mem_filter.mp hmem).2
      simp at this
      omega

/-- Witness for C7: among two events at times 10 and 1000 with cutoff 100,
the purge reports one removal and keeps the event at time 1000. -/
theorem purge_removes_strictly_older_witness :
    (cleanup_old_attacks
      [⟨some 1, "a", 1, "TCP", "X", "Y", 0, 0, 10⟩,
       ⟨some 2, "b", 2, "TCP", "X", "Y", 0, 0, 1000⟩] 100 0).2 = 1 ∧
    (⟨some 2, "b", 2, "TCP", "X", "Y", 0, 0, 1000⟩ : Attack) ∈
      (cleanup_old_attacks
        [⟨some 1, "a", 1, "TCP", "X", "Y", 0, 0, 10⟩,
         ⟨some 2, "b", 2, "TCP", "X", "Y", 0, 0, 1000⟩] 100 0).1 :=
  ⟨by decide,
   (purge_removes_strictly_older
      [⟨some 1, "a", 1, "TCP", "X", "Y", 0, 0, 10⟩,
       ⟨some 2, "b", 2, "TCP", "X", "Y", 0, 0, 1000⟩] 100 0).2.1
      ⟨some 2, "b", 2, "TCP", "X", "Y", 0, 0, 1000⟩ (by decide) (by decide)⟩

/-- C6 (amended): any response the query can produce for a validated limit
`L` holds at most `L` events and is ordered by timestamp descending; the
code imposes no tie-break on equal timestamps, and a limit above the hard
bound 1000 fails parameter validation and is rejected before the handler
runs. -/
theorem query_limit_and_order (events : List Attack)
    (country protocol : Option String) (port lower : Option Nat)
    (limit offset : Nat) (result : List Attack)
    (hres : get_attacks_result events country protocol port lower limit offset
      result) :
    result.length ≤ limit ∧ tsDescSorted result ∧
    (∀ l : Nat, 1000 < l → limit_param_ok l = false) := by
  obtain ⟨ordered, hperm, hsort, heq⟩ := hres
  subst heq
  refine ⟨?_, ?_, ?_⟩
  · rw [List.length_take]
    exact min_le_left _ _
  · have h1 : ((ordered.drop offset).take limit).Sublist ordered :=
      (List.take_sublist _ _).trans (List.drop_sublist _ _)
    exact List.Pairwise.sublist h1 hsort
  · intro l hl
    simp [limit_param_ok]
    omega

/-- Witness for the amended C6 on a two-event store with limit 1. -/
theorem query_limit_and_order_witness :
    get_attacks_result
      [⟨some 1, "a", 1, "TCP", "X", "Y", 0, 0, 50⟩,
       ⟨some 2, "b", 2, "TCP", "X", "Y", 0, 0, 70⟩]
      none none none none 1 0
      [⟨some 2, "b", 2, "TCP", "X", "Y", 0, 0, 70⟩] ∧
    ([⟨some 2, "b", 2, "TCP", "X", "Y", 0, 0, 70⟩] : List Attack).length ≤ 1 ∧
    tsDescSorted [⟨some 2, "b", 2, "TCP", "X", "Y", 0, 0, 70⟩] ∧
    limit_param_ok 1001 = false := by
  have hres : get_attacks_result
      [⟨some 1, "a", 1, "TCP", "X", "Y", 0, 0, 50⟩,
       ⟨some 2, "b", 2, "TCP", "X", "Y", 0, 0, 70⟩]
      none none none none 1 0
      [⟨some 2, "b", 2, "TCP", "X", "Y", 0, 0, 70⟩] := by
    refine ⟨[⟨some 2, "b", 2, "TCP", "X", "Y", 0, 0, 70⟩,
             ⟨some 1, "a", 1, "TCP", "X", "Y", 0, 0, 50⟩], ?_, ?_, ?_⟩
    · exact List.Perm.swap _ _ _
    · simp [tsDescSorted]
    · rfl
  have h := query_limit_and_order _ none none none none 1 0 _ hres
  exact ⟨hres, h.1, h.2.1, h.2.2 1001 (by decide)⟩

/-- C6 counterexample: two stored events share the timestamp 100 and carry
ids 1 and 2; returning them in id-ascending order is a response the query's
`ORDER BY timestamp DESC` admits, and that response is not ordered with
ties broken by id descending, so the claimed tie-break does not hold. -/
theorem query_tie_break_cex :
    get_attacks_result
      [⟨some 1, "a", 22, "TCP", "X", "Y", 0, 0, 100⟩,
       ⟨some 2, "b", 80, "TCP", "X", "Y", 0, 0, 100⟩]
      none none none none 100 0
      [⟨some 1, "a", 22, "TCP", "X", "Y", 0, 0, 100⟩,
       ⟨some 2, "b", 80, "TCP", "X", "Y", 0, 0, 100⟩] ∧
    ¬ List.Sorted (fun a b : Attack =>
        b.timestamp < a.timestamp ∨
          (b.timestamp = a.timestamp ∧ b.id.getD 0 < a.id.getD 0))
      [⟨some 1, "a", 22, "TCP", "X", "Y", 0, 0, 100⟩,
       ⟨some 2, "b", 80, "TCP", "X", "Y", 0, 0, 100⟩] := by
  constructor
  · refine ⟨[⟨some 1, "a", 22, "TCP", "X", "Y", 0, 0, 100⟩,
             ⟨some 2, "b", 80, "TCP", "X", "Y", 0, 0, 100⟩], ?_, ?_, ?_⟩
    · exact List.Perm.refl _
    · simp [tsDescSorted]
    · rfl
  · simp [List.Sorted]

theorem disconnect_of_not_mem {conns : List Nat} {s : Nat} (h : s ∉ conns) :
    disconnect conns s = conns := by
  simp [disconnect, h]

theorem mem_of_mem_disconnect {conns : List Nat} {x s : Nat}
    (h : x ∈ disconnect conns s) : x ∈ conns := by
  by_cases hs : s ∈ conns
  · rw [disconnect, if_pos hs] at h
    exact List.mem_of_mem_erase h
  · rwa [disconnect, if_neg hs] at h

theorem nodup_disconnect {conns : List Nat} {s : Nat} (h : conns.Nodup) :
    (disconnect conns s).Nodup := by
  by_cases hs : s ∈ conns
  · rw [disconnect, if_pos hs]
    exact h.erase s
  · rwa [disconnect, if_neg hs]

theorem not_mem_disconnect_self {conns : List Nat} {s : Nat}
    (hnd : conns.Nodup) : s ∉ disconnect conns s := by
  by_cases hs : s ∈ conns
  · rw [disconnect, if_pos hs]
    intro hmem
    exact absurd rfl (hnd.mem_erase_iff.mp hmem).1
  · rw [disconnect, if_neg hs]
    exact hs

theorem send_attack_loop_delivered (sendOk : Nat → Bool) (pending : List Nat) :
    ∀ delivered conns,
      (send_attack_loop sendOk pending delivered conns).1 =
        delivered ++ pending.filter sendOk := by
  induction pending with
  | nil => intro delivered conns; simp [send_attack_loop]
  | cons c rest ih =>
      intro delivered conns
      by_cases hc : sendOk c
      · rw [send_attack_loop, if_pos hc, ih, List.filter_cons, if_pos hc]
        simp
      · rw [send_attack_loop, if_neg hc, ih, List.filter_cons, if_neg hc]

theorem send_attack_loop_not_mem (sendOk : Nat → Bool) (pending : List Nat)
    {x : Nat} :
    ∀ delivered conns, x ∉ conns →
      x ∉ (send_attack_loop sendOk pending delivered conns).2 := by
  induction pending with
  | nil => intro delivered conns h; simpa [send_attack_loop] using h
  | cons c rest ih =>
      intro delivered conns h
      by_cases hc : sendOk c
      · rw [send_attack_loop, if_pos hc]
        exact ih _ _ h
      · rw [send_attack_loop, if_neg hc]
        exact ih _ _ (fun hm => h (mem_of_mem_disconnect hm))

theorem send_attack_loop_failed_removed (sendOk : Nat → Bool)
    (pending : List Nat) {s : Nat} :
    ∀ delivered conns, conns.Nodup → sendOk s = false → s ∈ pending →
      s ∉ (send_attack_loop sendOk pending delivered conns).2 := by
  induction pending with
  | nil => intro _ _ _ _ hmem; exact absurd hmem (List.not_mem_nil s)
  | cons c rest ih =>
      intro delivered conns hnd hfail hmem
      by_cases hc : sendOk c
      · have hs : s ∈ rest := by
          rcases List.mem_cons.mp hmem with rfl | hs
          · rw [hc] at hfail; exact absurd hfail (by simp)
          · exact hs
        rw [send_attack_loop, if_pos hc]
        exact ih _ _ hnd hfail hs
      · rcases List.mem_cons.mp hmem with rfl | hs
        · rw [send_attack_loop, if_neg hc]
          exact send_attack_loop_not_mem sendOk rest _ _
            (not_mem_disconnect_self hnd)
        · rw [send_attack_loop, if_neg hc]
          exact ih _ _ (nodup_disconnect hnd) hfail hs

/-- C9: during a broadcast over distinct subscribers, every subscriber in
the snapshot whose send fails is removed from the live connection list,
every subscriber in the snapshot whose send succeeds receives the payload,
and disconnecting an absent subscriber is a no-op. -/
theorem broadcast_drops_failed_subscriber (conns : List Nat)
    (sendOk : Nat → Bool) (hnd : conns.Nodup) :
    (∀ s ∈ conns, sendOk s = false → s ∉ (send_attack conns sendOk).2) ∧
    (∀ s ∈ conns, sendOk s = true → s ∈ (send_attack conns sendOk).1) ∧
    (∀ s : Nat, s ∉ conns → disconnect conns s = conns) := by
  have hne : ∀ s ∈ conns, conns.isEmpty = false := by
    intro s hs
    cases conns with
    | nil => exact absurd hs (List.not_mem_nil s)
    | cons a l => rfl
  refine ⟨?_, ?_, ?_⟩
  · intro s hs hfail
    rw [send_attack, if_neg (by simp [hne s hs])]
    exact send_attack_loop_failed_removed sendOk conns _ _ hnd hfail hs
  · intro s hs hok
    rw [send_attack, if_neg (by simp [hne s hs]), send_attack_loop_delivered]
    simpa using List.mem_filter.mpr ⟨hs, hok⟩
  · intro s h
    exact disconnect_of_not_mem h

/-- Witness for C9: among subscribers 1, 2, 3 with subscriber 2 failing,
2 is dropped from the list and 3 still receives the payload. -/
theorem broadcast_drops_failed_subscriber_witness :
    ([1, 2, 3] : List Nat).Nodup ∧
    (2 : Nat) ∉ (send_attack [1, 2, 3] (fun n => n != 2)).2 ∧
    (3 : Nat) ∈ (send_attack [1, 2, 3] (fun n => n != 2)).1 :=
  ⟨by decide,
   (broadcast_drops_failed_subscriber [1, 2, 3] (fun n => n != 2)
      (by decide)).1 2 (by decide) (by decide),
   (broadcast_drops_failed_subscriber [1, 2, 3] (fun n => n != 2)
      (by decide)).2.1 3 (by decide) (by decide)⟩

/-- C1: a capture whose commit raises produces no broadcast and leaves the
store unchanged while the handler still completes normally; a capture whose
commit succeeds broadcasts exactly the event that was persisted, carrying
its assigned id; and over any capture sequence, the store grows by exactly
one event per capture whose commit succeeds, so one failure never blocks
later captures. -/
theorem commit_gates_broadcast :
    (∀ (geo : GeoIPState) (store : Store) (conns : List Nat) (ip : String)
        (port : Nat) (protocol : String) (t d : Nat) (outcome : FetchOutcome)
        (sendOk : Nat → Bool),
      (handle_new_attack geo store conns ip port protocol t d outcome true
          sendOk).broadcasts = [] ∧
      (handle_new_attack geo store conns ip port protocol t d outcome true
          sendOk).store = store ∧
      (handle_new_attack geo store conns ip port protocol t d outcome true
          sendOk).completed = true) ∧
    (∀ (geo : GeoIPState) (store : Store) (conns : List Nat) (ip : String)
        (port : Nat) (protocol : String) (t d : Nat) (outcome : FetchOutcome)
        (sendOk : Nat → Bool),
      ∀ p ∈ (handle_new_attack geo store conns ip port protocol t d outcome
          false sendOk).broadcasts,
        p.id = store.nextId ∧
        ∃ a ∈ (handle_new_attack geo store conns ip port protocol t d outcome
            false sendOk).store.events,
          a.id = some p.id ∧ a.timestamp = p.timestamp ∧
            a.ip_address = p.ip_address) ∧
    (∀ (sendOk : Nat → Bool) (geo : GeoIPState) (store : Store)
        (conns : List Nat) (caps : List CaptureEnv),
      (process_captures sendOk geo store conns caps).2.1.events.length =
        store.events.length +
          (caps.filter (fun c => !c.storageFails)).length) := by
  refine ⟨?_, ?_, ?_⟩
  · intro geo store conns ip port protocol t d outcome sendOk
    exact ⟨rfl, rfl, rfl⟩
  · intro geo store conns ip port protocol t d outcome sendOk p hp
    simp only [handle_new_attack, Bool.false_eq_true, if_false,
      List.mem_singleton] at hp
    subst hp
    simp only [handle_new_attack, Bool.false_eq_true, if_false]
    exact ⟨rfl, _, List.mem_append_right _ (List.mem_singleton.mpr rfl),
      rfl, rfl, rfl⟩
  · intro sendOk geo store conns caps
    induction caps generalizing geo store conns with
    | nil => simp [process_captures]
    | cons c rest ih =>
        rw [process_captures, ih]
        by_cases hf : c.storageFails
        · simp [handle_new_attack, hf, List.filter_cons]
        · simp [handle_new_attack, hf, List.filter_cons]
          omega

/-- Witness for C1: a raising commit for a capture of 8.8.8.8 broadcasts
nothing, and the successful variant broadcasts the payload with id 1. -/
theorem commit_gates_broadcast_witness :
    (handle_new_attack GeoIPState.init ⟨1, []⟩ [] "8.8.8.8" 2222 "TCP" 0 0
        FetchOutcome.raises true (fun _ => true)).broadcasts = [] ∧
    (⟨1, "8.8.8.8", 2222, "TCP", "Unknown", "Unknown", 0, 0, 0⟩ :
        AttackData).id = 1 :=
  ⟨(commit_gates_broadcast.1 GeoIPState.init ⟨1, []⟩ [] "8.8.8.8" 2222 "TCP"
      0 0 FetchOutcome.raises (fun _ => true)).1,
   (commit_gates_broadcast.2.1 GeoIPState.init ⟨1, []⟩ [] "8.8.8.8" 2222 "TCP"
      0 0 FetchOutcome.raises (fun _ => true)
      ⟨1, "8.8.8.8", 2222, "TCP", "Unknown", "Unknown", 0, 0, 0⟩
      (by decide)).1⟩

end HoneypotMap
